import Mathlib

/-!
Shallow embedding of the tagged-union core of the Wrench library
(src/source/variant.hpp and src/source/result.hpp), together with theorems
settling the specification's claims about it.

C++ types are modelled as abstract records carrying an identity, a size and
an alignment; payload values are modelled as integers.  Object-lifetime
side effects (constructor and destructor invocations) are made observable
through an explicit event trace, mirroring the spec's own suggestion to
verify lifetime properties "via instrumented payload types counting
constructions/destructions".
-/

namespace Wrench

/-- Model of a C++ type: an identity (what std::is_same compares), its
sizeof and its alignof. -/
structure CppType where
  tid : Nat
  size : Nat
  align : Nat
deriving DecidableEq

/-- std::numeric_limits of size_t, max(): the not-found sentinel returned by
GetIndexOfTypeInternal (variant.hpp line 54). -/
def USIZE_MAX : Nat := 2 ^ 64 - 1

/-- variant.hpp lines 54-60: GetIndexOfTypeInternal.  Base case (no types
left) yields the sentinel; otherwise compare the searched type with the
current head and recurse with index + 1. -/
def GetIndexOfTypeInternal (index : Nat) (twhat : CppType) : List CppType → Nat
  | [] => USIZE_MAX
  | tcurrent :: targs =>
      if twhat = tcurrent then index else GetIndexOfTypeInternal (index + 1) twhat targs

/-- variant.hpp line 62: GetIndexOfType starts the search at index 0. -/
def GetIndexOfType (twhat : CppType) (targs : List CppType) : Nat :=
  GetIndexOfTypeInternal 0 twhat targs

/-- variant.hpp lines 45-51: GetMaxSize over the parameter pack.  The C++
overload set has no case for an empty pack (an empty Variant is a
definition error); the [] case below is unreachable for valid registries. -/
def GetMaxSize : List CppType → Nat
  | [] => 0
  | [t] => t.size
  | t :: targs => if t.size > GetMaxSize targs then t.size else GetMaxSize targs

/-- Lifetime events, the observable side effects of constructors and
destructors of payload objects.  storageDtor records an invocation of
TStorageType's destructor: TStorageType is the POD std::aligned_storage
type, whose destructor is trivial and destroys no payload object. -/
inductive Event where
  | ctor (t : CppType)
  | dtor (t : CppType)
  | storageDtor
deriving DecidableEq

/-- State of a Variant object (variant.hpp lines 166-168): the raw storage
buffer and the current type tag.  The buffer's abstract content is the
payload object placement-constructed into it, if any; none models the
value-initialized zero bytes of a fresh buffer, in which no object lives. -/
structure VariantState where
  mStorage : Option (CppType × Int)
  mCurrTypeId : Nat
deriving DecidableEq

namespace Variant

/-- variant.hpp lines 85-88: the default constructor value-initializes the
storage and sets mCurrTypeId to 0. -/
def mkDefault : VariantState :=
  { mStorage := none, mCurrTypeId := 0 }

/-- variant.hpp lines 90-93: the copy constructor copies mStorage (the
implicit, bitwise copy of the POD aligned_storage member) and the tag.  No
payload copy constructor is dispatched, hence the empty event trace. -/
def copyCtor (ref : VariantState) : VariantState × List Event :=
  ({ mStorage := ref.mStorage, mCurrTypeId := ref.mCurrTypeId }, [])

/-- variant.hpp lines 100-103: the destructor runs mStorage.~TStorageType().
TStorageType is the POD aligned_storage type, so this destructor is trivial:
it does not dispatch on the tag and destroys no payload object. -/
def destruct (_v : VariantState) : List Event :=
  [Event.storageDtor]

/-- variant.hpp lines 106-119: operator=(const T&).  If mCurrTypeId is
nonzero it invokes mStorage.~TStorageType() (the trivial POD destructor,
recorded as storageDtor, destroying no payload); then sets mCurrTypeId to
GetIndexOfType of T and placement-constructs a T from the value. -/
def assign (targs : List CppType) (v : VariantState) (T : CppType) (value : Int) :
    VariantState × List Event :=
  ({ mStorage := some (T, value), mCurrTypeId := GetIndexOfType T targs },
   (if v.mCurrTypeId != 0 then [Event.storageDtor] else []) ++ [Event.ctor T])

/-- variant.hpp lines 137-141: Is compares the current tag with the index
of T in the parameter pack. -/
def Is (targs : List CppType) (v : VariantState) (T : CppType) : Bool :=
  v.mCurrTypeId == GetIndexOfType T targs

/-- Outcome of the checked accessor As: either std::terminate was invoked,
or a reference to the buffer reinterpreted as T is returned (carrying the
buffer's abstract content). -/
inductive AsResult where
  | terminated
  | value (payload : Option (CppType × Int))
deriving DecidableEq

/-- variant.hpp lines 143-165: As checks Is, terminates on failure, and
otherwise returns the reinterpreted storage.  Both const and mutable
overloads have this same behaviour; the function mutates nothing. -/
def As (targs : List CppType) (v : VariantState) (T : CppType) : AsResult :=
  if Is targs v T then AsResult.value v.mStorage else AsResult.terminated

end Variant

/-- variant.hpp lines 78-82: friend Swap exchanges mStorage and mCurrTypeId
of the two variants via std::swap. -/
def Swap (v1 v2 : VariantState) : VariantState × VariantState :=
  ({ mStorage := v2.mStorage, mCurrTypeId := v2.mCurrTypeId },
   { mStorage := v1.mStorage, mCurrTypeId := v1.mCurrTypeId })

/-- result.hpp line 89: Storage.mSize is the larger of sizeof(T) and
sizeof(E). -/
def Storage.mSize (sizeT sizeE : Nat) : Nat :=
  if sizeT > sizeE then sizeT else sizeE

/-- result.hpp line 90: Storage.mAlignment as written in the source — the
ternary (alignof(T) > alignof(E)) ? alignof(E) : alignof(E), whose two
branches are both alignof(E). -/
def Storage.mAlignment (alignT alignE : Nat) : Nat :=
  if alignT > alignE then alignE else alignE

/-- result.hpp lines 59-67: TOkValue wraps a success value. -/
structure TOkValue (T : Type) where
  mValue : T

/-- result.hpp lines 72-80: TErrValue wraps an error value. -/
structure TErrValue (E : Type) where
  mError : E

/-- result.hpp lines 83-176: Storage for Result.  mData is the abstract
content of the aligned_storage buffer: the object constructed in it, a T on
the success path or an E on the error path; none models uninitialized
bytes. -/
structure RStorage (T E : Type) where
  mIsInitialized : Bool
  mIsValid : Bool
  mData : Option (T ⊕ E)

namespace RStorage

/-- result.hpp lines 96-100: constructing from TOkValue placement-constructs
a T and marks the storage initialized and valid. -/
def ofOkValue (value : TOkValue T) : RStorage T E :=
  { mIsInitialized := true, mIsValid := true, mData := some (Sum.inl value.mValue) }

/-- result.hpp lines 102-106: constructing from TErrValue placement-constructs
an E and marks the storage initialized but not valid. -/
def ofErrValue (value : TErrValue E) : RStorage T E :=
  { mIsInitialized := true, mIsValid := false, mData := some (Sum.inr value.mError) }

/-- result.hpp line 150: IsValid returns mIsValid. -/
def IsValid (s : RStorage T E) : Bool := s.mIsValid

/-- result.hpp lines 138-148: GetAs reinterprets the buffer as a T.  When
the buffer does not hold a T the reinterpretation yields an unspecified
value, modelled as default. -/
def GetAsT [Inhabited T] (s : RStorage T E) : T :=
  match s.mData with
  | some (Sum.inl v) => v
  | _ => default

/-- result.hpp lines 138-148: GetAs reinterprets the buffer as an E; an
unspecified value (default) when the buffer does not hold an E. -/
def GetAsE [Inhabited E] (s : RStorage T E) : E :=
  match s.mData with
  | some (Sum.inr e) => e
  | _ => default

end RStorage

/-- result.hpp lines 260-349: Result wraps one Storage. -/
structure Result (T E : Type) where
  mData : RStorage T E

namespace Result

/-- result.hpp line 271: Result(const TOkValue&). -/
def ofOkValue (value : TOkValue T) : Result T E :=
  ⟨RStorage.ofOkValue value⟩

/-- result.hpp line 272: Result(const TErrValue&). -/
def ofErrValue (error : TErrValue E) : Result T E :=
  ⟨RStorage.ofErrValue error⟩

/-- result.hpp line 317: IsOk returns mData.IsValid(). -/
def IsOk (r : Result T E) : Bool := r.mData.IsValid

/-- result.hpp lines 281-291: Get panics (modelled as none) when the storage
is not valid, and otherwise returns the stored T. -/
def Get [Inhabited T] (r : Result T E) : Option T :=
  if !r.mData.IsValid then none else some r.mData.GetAsT

/-- result.hpp lines 293-303: GetOrDefault returns the fallback when the
storage is not valid, and otherwise the stored T.  It never panics. -/
def GetOrDefault [Inhabited T] (r : Result T E) (altValue : T) : T :=
  if !r.mData.IsValid then altValue else r.mData.GetAsT

/-- result.hpp lines 305-315: GetError panics (none) when the storage is
valid, and otherwise returns the stored E. -/
def GetError [Inhabited E] (r : Result T E) : Option E :=
  if r.mData.IsValid then none else some r.mData.GetAsE

end Result

/-- Concrete model of the int alternative used in the repository's tests. -/
def tInt : CppType := ⟨0, 4, 4⟩

/-- Concrete model of the float alternative. -/
def tFloat : CppType := ⟨1, 4, 4⟩

/-- Concrete model of the std::string alternative. -/
def tString : CppType := ⟨2, 32, 8⟩

/-- Concrete model of the TScopeGuard alternative of the tests, whose
destructor sets an external flag. -/
def tGuard : CppType := ⟨3, 8, 8⟩

/-- Registry of scenario 1 of the spec: Variant of int, float, std::string. -/
def regIFS : List CppType := [tInt, tFloat, tString]

/-- Two-alternative registry with int first. -/
def regIF : List CppType := [tInt, tFloat]

/-- Registry pairing int with the scope-guard alternative. -/
def regIG : List CppType := [tInt, tGuard]

/-- Variant over regIFS currently holding the string alternative, obtained
by assigning a string payload to a default-constructed variant. -/
def vHoldingString : VariantState :=
  (Variant.assign regIFS Variant.mkDefault tString 7).1

/-- Variant over regIG currently holding the guard alternative. -/
def vHoldingGuard : VariantState :=
  (Variant.assign regIG Variant.mkDefault tGuard 11).1

/-- Helper: when GetIndexOfTypeInternal does not return the sentinel, the
returned index is below the starting index plus the pack length. -/
theorem getIndexOfTypeInternal_lt_of_ne_sentinel (twhat : CppType) :
    ∀ (l : List CppType) (i : Nat), GetIndexOfTypeInternal i twhat l ≠ USIZE_MAX →
      GetIndexOfTypeInternal i twhat l < i + l.length := by
  intro l
  induction l with
  | nil => intro i h; simp [GetIndexOfTypeInternal] at h
  | cons t rest ih =>
    intro i h
    by_cases heq : twhat = t
    · simp [GetIndexOfTypeInternal, heq]
    · simp only [GetIndexOfTypeInternal, if_neg heq] at h ⊢
      have := ih (i + 1) h
      simp only [List.length_cons]
      omega

/-- Helper: a type that occurs in the pack is found at an index below the
starting index plus the pack length. -/
theorem getIndexOfTypeInternal_lt_of_mem (twhat : CppType) :
    ∀ (l : List CppType) (i : Nat), twhat ∈ l →
      GetIndexOfTypeInternal i twhat l < i + l.length := by
  intro l
  induction l with
  | nil => intro i h; simp at h
  | cons t rest ih =>
    intro i h
    by_cases heq : twhat = t
    · simp [GetIndexOfTypeInternal, heq]
    · have hm : twhat ∈ rest := by
        rcases List.mem_cons.mp h with h1 | h2
        · exact absurd h1 heq
        · exact h2
      simp only [GetIndexOfTypeInternal, if_neg heq, List.length_cons]
      have := ih (i + 1) hm
      omega

/-- Helper: a type absent from the pack makes GetIndexOfTypeInternal return
the sentinel. -/
theorem getIndexOfTypeInternal_eq_sentinel_of_not_mem (twhat : CppType) :
    ∀ (l : List CppType) (i : Nat), twhat ∉ l →
      GetIndexOfTypeInternal i twhat l = USIZE_MAX := by
  intro l
  induction l with
  | nil => intro i _; rfl
  | cons t rest ih =>
    intro i h
    have heq : twhat ≠ t := fun he => h (he ▸ List.mem_cons_self t rest)
    have hm : twhat ∉ rest := fun hr => h (List.mem_cons_of_mem t hr)
    simp only [GetIndexOfTypeInternal, if_neg heq]
    exact ih (i + 1) hm

/-- C1: the claim says assigning a value of alternative U over a live
payload of alternative T runs T's destructor exactly once before U's
constructor.  Evaluating the code at the failing input — a variant over
(int, float, std::string) holding a string, then assigned an int — the
assignment's event trace contains only the trivial storage destructor and
int's constructor: the string destructor runs zero times, not once. -/
theorem variant_assign_runs_no_payload_destructor :
    (Variant.assign regIFS vHoldingString tInt 5).2
      = [Event.storageDtor, Event.ctor tInt] ∧
    ((Variant.assign regIFS vHoldingString tInt 5).2.count (Event.dtor tString)) = 0 := by
  constructor <;> rfl

/-- C2: the claim says destroying a tagged value runs the live payload's
destructor exactly once (and no destructor when empty).  Evaluating the
code on a variant holding the guard alternative: the destructor's trace is
only the trivial storage destructor — the guard's destructor runs zero
times, so its flag is never set.  The empty-variant half (no payload
destructor) does hold. -/
theorem variant_destruct_runs_no_payload_destructor :
    Variant.destruct vHoldingGuard = [Event.storageDtor] ∧
    ((Variant.destruct vHoldingGuard).count (Event.dtor tGuard)) = 0 ∧
    ((Variant.destruct Variant.mkDefault).count (Event.dtor tGuard)) = 0 := by
  refine ⟨rfl, rfl, rfl⟩

/-- C3 counterexample: the claim says a default-constructed tagged value
answers false to Is for every alternative, including the first.  On a
default-constructed variant over (int, float) the code answers true for
int: the initial tag is 0, which is also int's index. -/
theorem default_variant_is_first_alternative :
    Variant.Is regIF Variant.mkDefault tInt = true := by decide

/-- C3 amended: a default-constructed variant has tag 0, which coincides
with the first alternative's index, so Is is true exactly for an
alternative of index 0 and false for every other; separately, the IndexOf
not-found sentinel (USIZE_MAX) is distinct from every valid index, since a
non-sentinel lookup result is always below the registry's length. -/
theorem default_variant_tag_zero_spec (targs : List CppType) (T : CppType) :
    (GetIndexOfType T targs = 0 → Variant.Is targs Variant.mkDefault T = true) ∧
    (GetIndexOfType T targs ≠ 0 → Variant.Is targs Variant.mkDefault T = false) ∧
    (GetIndexOfType T targs ≠ USIZE_MAX → GetIndexOfType T targs < targs.length) := by
  refine ⟨?_, ?_, ?_⟩
  · intro h
    simp [Variant.Is, Variant.mkDefault, h]
  · intro h
    simp [Variant.Is, Variant.mkDefault]
    omega
  · intro h
    have := getIndexOfTypeInternal_lt_of_ne_sentinel T targs 0 h
    simpa [GetIndexOfType] using this

/-- C3 amended witness: concrete instances of the amended statement on the
registry (int, float). -/
theorem default_variant_tag_zero_spec_witness :
    Variant.Is regIF Variant.mkDefault tInt = true ∧
    Variant.Is regIF Variant.mkDefault tFloat = false ∧
    GetIndexOfType tFloat regIF < regIF.length :=
  ⟨(default_variant_tag_zero_spec regIF tInt).1 (by decide),
   (default_variant_tag_zero_spec regIF tFloat).2.1 (by decide),
   (default_variant_tag_zero_spec regIF tFloat).2.2 (by decide)⟩

/-- C4: the claim says the success/error storage is aligned to the maximum
of alignof(T) and alignof(E).  Evaluating the source expression at
alignof(T) = 8, alignof(E) = 4: both branches of the ternary in result.hpp
line 90 are alignof(E), so the computed alignment is 4, not max 8 4 = 8.
The size half at the same shapes is computed correctly. -/
theorem result_storage_alignment_not_max :
    Storage.mAlignment 8 4 = 4 ∧
    Storage.mAlignment 8 4 ≠ max 8 4 ∧
    Storage.mSize 8 4 = max 8 4 ∧
    GetMaxSize regIFS = 32 := by
  refine ⟨rfl, by decide, rfl, rfl⟩

/-- C5: As terminates exactly when Is is false, and when Is is true it
returns the reference to the live payload (the buffer content), with no
state change — As is a pure observation of the state. -/
theorem as_terminates_iff_not_holding (targs : List CppType) (v : VariantState)
    (T : CppType) :
    (Variant.As targs v T = Variant.AsResult.terminated ↔ Variant.Is targs v T = false) ∧
    (Variant.Is targs v T = true → Variant.As targs v T = Variant.AsResult.value v.mStorage) := by
  cases h : Variant.Is targs v T <;> simp [Variant.As, h]

/-- C5 witness: on the variant holding a string, Is for string is true and
As returns the stored payload rather than terminating. -/
theorem as_terminates_iff_not_holding_witness :
    (Variant.As regIFS vHoldingString tString = Variant.AsResult.terminated ↔
      Variant.Is regIFS vHoldingString tString = false) ∧
    Variant.As regIFS vHoldingString tString
      = Variant.AsResult.value vHoldingString.mStorage :=
  ⟨(as_terminates_iff_not_holding regIFS vHoldingString tString).1,
   (as_terminates_iff_not_holding regIFS vHoldingString tString).2 (by decide)⟩

/-- C6: from any state, assigning a value of a registered alternative T
makes Is for T true and As for T return that value. -/
theorem assign_then_is_true_and_as_returns_value (targs : List CppType)
    (v : VariantState) (T : CppType) (val : Int)
    (hreg : GetIndexOfType T targs ≠ USIZE_MAX) :
    Variant.Is targs (Variant.assign targs v T val).1 T = true ∧
    Variant.As targs (Variant.assign targs v T val).1 T
      = Variant.AsResult.value (some (T, val)) := by
  have his : Variant.Is targs (Variant.assign targs v T val).1 T = true := by
    simp [Variant.Is, Variant.assign]
  exact ⟨his, by simp [Variant.As, Variant.assign, Variant.Is]⟩

/-- C6 witness: assigning int value 5 to a default-constructed variant over
(int, float, std::string). -/
theorem assign_then_is_true_and_as_returns_value_witness :
    Variant.Is regIFS (Variant.assign regIFS Variant.mkDefault tInt 5).1 tInt = true ∧
    Variant.As regIFS (Variant.assign regIFS Variant.mkDefault tInt 5).1 tInt
      = Variant.AsResult.value (some (tInt, 5)) :=
  assign_then_is_true_and_as_returns_value regIFS Variant.mkDefault tInt 5 (by decide)

/-- C7 counterexample: the claim says copy-construction deep-copies the
active payload via that alternative's copy constructor.  On a variant
holding a string, the copy constructor's event trace contains no
constructor invocation of the string alternative at all: the code copies
the raw storage bytes bitwise (variant.hpp lines 90-93). -/
theorem copy_construct_invokes_no_payload_copy :
    ¬ ((Variant.copyCtor vHoldingString).2.count (Event.ctor tString) = 1) := by
  decide

/-- C7 amended: copy-construction copies the tag and the storage bytes
bitwise, invoking no payload constructor; the resulting variant has the
same tag, the same payload content and the same Is answers as the source,
and the source is unchanged (the operation reads it only). -/
theorem copy_construct_bitwise_spec (ref : VariantState) :
    (Variant.copyCtor ref).2 = [] ∧
    (Variant.copyCtor ref).1.mCurrTypeId = ref.mCurrTypeId ∧
    (Variant.copyCtor ref).1.mStorage = ref.mStorage ∧
    (∀ (targs : List CppType) (T : CppType),
      Variant.Is targs (Variant.copyCtor ref).1 T = Variant.Is targs ref T) :=
  ⟨rfl, rfl, rfl, fun _ _ => rfl⟩

/-- C8: Swap exchanges the full states of the two variants — each result
carries the other argument's tag and payload, and answers Is exactly as the
other argument did. -/
theorem swap_exchanges_full_state (a b : VariantState) :
    (Swap a b).1.mCurrTypeId = b.mCurrTypeId ∧
    (Swap a b).1.mStorage = b.mStorage ∧
    (Swap a b).2.mCurrTypeId = a.mCurrTypeId ∧
    (Swap a b).2.mStorage = a.mStorage ∧
    (∀ (targs : List CppType) (T : CppType),
      Variant.Is targs (Swap a b).1 T = Variant.Is targs b T ∧
      Variant.Is targs (Swap a b).2 T = Variant.Is targs a T) :=
  ⟨rfl, rfl, rfl, rfl, fun _ _ => ⟨rfl, rfl⟩⟩

/-- C9: on a success container Get returns the stored value, GetError
panics and GetOrDefault returns the stored value; on an error container Get
panics, GetError returns the stored error and GetOrDefault returns the
fallback.  Panicking is modelled as none; GetOrDefault's total return type
shows it never panics. -/
theorem result_get_accessors_spec {T E : Type} [Inhabited T] [Inhabited E]
    (v : T) (e : E) (alt : T) :
    (Result.ofOkValue (E := E) ⟨v⟩).IsOk = true ∧
    (Result.ofOkValue (E := E) ⟨v⟩).Get = some v ∧
    (Result.ofOkValue (E := E) ⟨v⟩).GetError = none ∧
    (Result.ofOkValue (E := E) ⟨v⟩).GetOrDefault alt = v ∧
    (Result.ofErrValue (T := T) ⟨e⟩).IsOk = false ∧
    (Result.ofErrValue (T := T) ⟨e⟩).Get = none ∧
    (Result.ofErrValue (T := T) ⟨e⟩).GetError = some e ∧
    (Result.ofErrValue (T := T) ⟨e⟩).GetOrDefault alt = alt :=
  ⟨rfl, rfl, rfl, rfl, rfl, rfl, rfl, rfl⟩

/-- C9 witness: the accessor contract evaluated on concrete integer
success and error containers. -/
theorem result_get_accessors_spec_witness :
    (Result.ofOkValue (E := Int) ⟨(3 : Int)⟩).Get = some 3 ∧
    (Result.ofErrValue (T := Int) ⟨(7 : Int)⟩).GetOrDefault 9 = 9 :=
  ⟨(result_get_accessors_spec (3 : Int) (7 : Int) 9).2.1,
   (result_get_accessors_spec (3 : Int) (7 : Int) 9).2.2.2.2.2.2.2⟩

/-- C10: assigning a value whose type is not among the alternatives
succeeds (the assignment is total) and sets the tag to the not-found
sentinel, the maximum size_t value; afterwards Is is false and As
terminates for every registered alternative. -/
theorem assign_unregistered_type_sets_sentinel (targs : List CppType)
    (v : VariantState) (T : CppType) (val : Int)
    (hmem : T ∉ targs) (hlen : targs.length ≤ USIZE_MAX) :
    (Variant.assign targs v T val).1.mCurrTypeId = USIZE_MAX ∧
    (∀ U, U ∈ targs →
      Variant.Is targs (Variant.assign targs v T val).1 U = false ∧
      Variant.As targs (Variant.assign targs v T val).1 U
        = Variant.AsResult.terminated) := by
  have htag : (Variant.assign targs v T val).1.mCurrTypeId = USIZE_MAX := by
    simp only [Variant.assign]
    exact getIndexOfTypeInternal_eq_sentinel_of_not_mem T targs 0 hmem
  refine ⟨htag, ?_⟩
  intro U hU
  have hlt : GetIndexOfType U targs < targs.length := by
    have := getIndexOfTypeInternal_lt_of_mem U targs 0 hU
    simpa [GetIndexOfType] using this
  have hne : USIZE_MAX ≠ GetIndexOfType U targs := by omega
  have his : Variant.Is targs (Variant.assign targs v T val).1 U = false := by
    simp only [Variant.Is, htag]
    exact beq_false_of_ne hne
  exact ⟨his, by simp [Variant.As, his]⟩

/-- C10 witness: assigning a string payload to a variant whose registry is
only (int): the tag becomes the sentinel and int can no longer be observed
or accessed. -/
theorem assign_unregistered_type_sets_sentinel_witness :
    (Variant.assign [tInt] Variant.mkDefault tString 3).1.mCurrTypeId = USIZE_MAX ∧
    Variant.Is [tInt] (Variant.assign [tInt] Variant.mkDefault tString 3).1 tInt = false ∧
    Variant.As [tInt] (Variant.assign [tInt] Variant.mkDefault tString 3).1 tInt
      = Variant.AsResult.terminated := by
  have h := assign_unregistered_type_sets_sentinel [tInt] Variant.mkDefault tString 3
    (by decide) (by decide)
  exact ⟨h.1, (h.2 tInt (by decide)).1, (h.2 tInt (by decide)).2⟩

end Wrench
